import Mathlib

/-!
Verification of the invoice generator (`invoicegen.py`) against its
natural-language specification.

The program state touched by the claims is embedded shallowly:

* the counter file `invoice_number.txt` is a `String` (its content); the
  `r+`-mode `seek(0); write(...)` of `get_next_invoice_number` is modelled by
  overwriting the leading characters of the old content without truncation;
* the PDF canvas is a list of drawing operations (`DrawOp`); reportlab's
  `canvas.Canvas` buffers in memory and only writes the file on `save()`, so a
  generation attempt that raises before `save()` produces no file on disk;
* Python builtins (`str`, `int`, `float`, `str.strip`, `str.split`,
  `date.strftime`, `timedelta` day arithmetic) are modelled by executable
  functions faithful to their behaviour on the inputs the program feeds them.
-/

namespace InvoiceGen

/-! ### Models of the Python string builtins -/

/-- Model of Python `str.strip()`: remove leading and trailing whitespace. -/
def py_strip (cs : List Char) : List Char :=
  ((cs.dropWhile Char.isWhitespace).reverse.dropWhile Char.isWhitespace).reverse

/-- Numeric value of a decimal digit character. -/
def digitVal (c : Char) : Nat := c.toNat - 48

/-- Value of a big-endian digit-character list. -/
def int_fold (cs : List Char) : Nat :=
  cs.foldl (fun a c => 10 * a + digitVal c) 0

/-- Value of a nonempty all-digit character list, `none` otherwise. -/
def digits_value (cs : List Char) : Option Nat :=
  if cs.isEmpty then none
  else if cs.all Char.isDigit then some (int_fold cs) else none

/-- Model of Python `int(s)`: strip, optional sign, nonempty digit string;
raises (`none`) otherwise. -/
def py_int (s : String) : Option Int :=
  let cs := py_strip s.toList
  if cs.head? = some '-' then (digits_value cs.tail).map (fun v => -(v : Int))
  else if cs.head? = some '+' then (digits_value cs.tail).map (fun v => (v : Int))
  else (digits_value cs).map (fun v => (v : Int))

/-- Big-endian decimal digits of `n`, fuel-driven so that it is structural. -/
def natDigitsBEAux : Nat → Nat → List Char
  | 0, _ => []
  | fuel + 1, n =>
    if n < 10 then [Nat.digitChar n]
    else natDigitsBEAux fuel (n / 10) ++ [Nat.digitChar (n % 10)]

/-- Big-endian decimal digits of `n` (canonical, no leading zeros). -/
def natDigitsBE (n : Nat) : List Char := natDigitsBEAux (n + 1) n

/-- Model of Python `str(n)` for a natural number. -/
def py_str_nat (n : Nat) : String := String.mk (natDigitsBE n)

/-- Model of Python `str(i)` for an integer. -/
def py_str_int (i : Int) : String :=
  if i < 0 then "-" ++ py_str_nat (-i).toNat else py_str_nat i.toNat

/-- Model of Python `float(s)` restricted to plain decimal literals
(optional sign, digits, at most one point, at least one digit), which is the
only form the invoice form feeds it; anything else raises (`none`). -/
def py_float (s : String) : Option ℚ :=
  let cs0 := py_strip s.toList
  let sgn : ℚ := if cs0.head? = some '-' then -1 else 1
  let cs : List Char :=
    if cs0.head? = some '-' then cs0.tail
    else if cs0.head? = some '+' then cs0.tail else cs0
  let w := cs.takeWhile (fun c => c != '.')
  let r := cs.dropWhile (fun c => c != '.')
  match r with
  | [] =>
    if cs.isEmpty then none
    else if cs.all Char.isDigit then some (sgn * (int_fold cs : ℚ)) else none
  | _ :: f =>
    if f.any (fun c => c == '.') then none
    else if w.isEmpty && f.isEmpty then none
    else if (w ++ f).all Char.isDigit then
      some (sgn * ((int_fold w : ℚ) + (int_fold f : ℚ) / (10 : ℚ) ^ f.length))
    else none

/-- Two-digit zero padding, as in Python `"%02d"`. -/
def pad2 (n : Nat) : String := if n < 10 then "0" ++ py_str_nat n else py_str_nat n

/-- Model of Python `f"{q:.2f}"` for the subtotal display (two decimals). -/
def py_format_2f (q : ℚ) : String :=
  let n : Int := round (q * 100)
  py_str_int (n / 100) ++ "." ++ pad2 (n % 100).toNat

/-! ### Invoice sequence allocator (counter file) -/

/-- Effect of `f.seek(0); f.write(new)` on a file opened in `r+` mode: the
leading bytes are overwritten and NO truncation happens, so characters of the
old content beyond the written text survive. -/
def file_write_at_start (old new : String) : String :=
  String.mk (new.toList ++ old.toList.drop new.toList.length)

/-- Embedding of `get_next_invoice_number` (invoicegen.py:404-417): parse the
file content as an int (raises if non-numeric), write `number + 1` back at
offset 0, return `number + 1`.  Result: (returned number, new file content). -/
def get_next_invoice_number (content : String) : Option (Int × String) :=
  (py_int content).map
    (fun number => (number + 1, file_write_at_start content (py_str_int (number + 1))))

/-- Embedding of `verify_invoice_number_file` (invoicegen.py:391-402) acting on
the counter file (`none` = file absent): create it containing `"0"` if absent,
leave it untouched otherwise. -/
def verify_invoice_number_file : Option String → Option String
  | none => some "0"
  | some v => some v

/-- N sequential calls to the allocator; returns the list of allocated numbers
and the final file content, or `none` if some call raises. -/
def allocate_n : String → Nat → Option (List Int × String)
  | content, 0 => some ([], content)
  | content, n + 1 =>
    (get_next_invoice_number content).bind (fun p =>
      (allocate_n p.2 n).map (fun q => (p.1 :: q.1, q.2)))

/-! ### Dates (Python `datetime.date` + `timedelta(days=15)`) -/

/-- Calendar date (proleptic Gregorian, as Python's `datetime.date`). -/
structure Date where
  year : Nat
  month : Nat
  day : Nat
  deriving DecidableEq

/-- Gregorian leap-year rule. -/
def isLeapYear (y : Nat) : Bool := y % 4 == 0 && (y % 100 != 0 || y % 400 == 0)

/-- Days in a month of a given year (months numbered 1..12). -/
def daysInMonth (y m : Nat) : Nat :=
  match m with
  | 1 => 31
  | 2 => if isLeapYear y then 29 else 28
  | 3 => 31
  | 4 => 30
  | 5 => 31
  | 6 => 30
  | 7 => 31
  | 8 => 31
  | 9 => 30
  | 10 => 31
  | 11 => 30
  | 12 => 31
  | _ => 0

/-- Successor day, with month and year rollover. -/
def nextDay (d : Date) : Date :=
  if d.day < daysInMonth d.year d.month then ⟨d.year, d.month, d.day + 1⟩
  else if d.month < 12 then ⟨d.year, d.month + 1, 1⟩
  else ⟨d.year + 1, 1, 1⟩

/-- Model of Python `d + timedelta(days=n)`. -/
def addDays (d : Date) (n : Nat) : Date := nextDay^[n] d

/-- Validity of a calendar date (Python's `datetime.date` invariant). -/
def ValidDate (d : Date) : Prop :=
  1 ≤ d.year ∧ 1 ≤ d.month ∧ d.month ≤ 12 ∧ 1 ≤ d.day ∧ d.day ≤ daysInMonth d.year d.month

instance (d : Date) : Decidable (ValidDate d) := by
  unfold ValidDate; infer_instance

/-- Cumulative days before month `m` in year `y`. -/
def daysBeforeMonth (y m : Nat) : Nat :=
  match m with
  | 1 => 0
  | 2 => 31
  | 3 => 59 + (if isLeapYear y then 1 else 0)
  | 4 => 90 + (if isLeapYear y then 1 else 0)
  | 5 => 120 + (if isLeapYear y then 1 else 0)
  | 6 => 151 + (if isLeapYear y then 1 else 0)
  | 7 => 181 + (if isLeapYear y then 1 else 0)
  | 8 => 212 + (if isLeapYear y then 1 else 0)
  | 9 => 243 + (if isLeapYear y then 1 else 0)
  | 10 => 273 + (if isLeapYear y then 1 else 0)
  | 11 => 304 + (if isLeapYear y then 1 else 0)
  | 12 => 334 + (if isLeapYear y then 1 else 0)
  | _ => 0

/-- Number of leap years strictly before year `y` (counting from year 1). -/
def leapsBefore (y : Nat) : Nat := (y - 1) / 4 - (y - 1) / 100 + (y - 1) / 400

/-- Rata-die style day count: position of the date on the time line.  Two dates
are `k` calendar days apart exactly when their ordinals differ by `k`. -/
def dateOrdinal (d : Date) : Nat :=
  365 * (d.year - 1) + leapsBefore d.year + daysBeforeMonth d.year d.month + d.day

/-- English month name, as produced by `strftime("%B")`. -/
def month_name (m : Nat) : String :=
  match m with
  | 1 => "January"
  | 2 => "February"
  | 3 => "March"
  | 4 => "April"
  | 5 => "May"
  | 6 => "June"
  | 7 => "July"
  | 8 => "August"
  | 9 => "September"
  | 10 => "October"
  | 11 => "November"
  | 12 => "December"
  | _ => ""

/-- Model of Python `strftime("%d %B %Y")`. -/
def py_strftime (d : Date) : String :=
  pad2 d.day ++ " " ++ month_name d.month ++ " " ++ py_str_nat d.year

/-! ### Configuration loader (`load_config`, invoicegen.py:81-123) -/

/-- Errors relevant to configuration loading.  `valueError` is an uncaught
Python `ValueError` (unclassified exception); `configurationError` is the
classified fatal parse error the specification's taxonomy prescribes (the
source never produces it). -/
inductive PyError where
  | valueError
  | configurationError
  deriving DecidableEq

/-- Configuration attributes set by `load_config` (absent until their key is
seen, matching Python attributes that are only created on assignment). -/
structure ConfigState where
  companyimage_file_name : Option String := none
  signature_file_name : Option String := none
  company_name : Option String := none
  address : Option String := none
  city_st_zip : Option String := none
  phone_no : Option String := none
  email : Option String := none
  customer_name : Option String := none
  customer_email : Option String := none
  customer_address : Option String := none
  customer_city : Option String := none
  deriving DecidableEq

/-- Model of Python `line.split('=', 1)` restricted to the unpacking
`key, value = ...`: `none` when the line has no `'='` (the unpacking of the
1-element list raises `ValueError`). -/
def split_first_eq : List Char → Option (List Char × List Char)
  | [] => none
  | c :: rest =>
    if c = '=' then some ([], rest)
    else (split_first_eq rest).map (fun p => (c :: p.1, p.2))

/-- Assignment of one recognized configuration key (the `if`/`elif` chain of
`load_config`); unrecognized keys are ignored. -/
def set_config_key (st : ConfigState) (key value : String) : ConfigState :=
  if key = "companyimage_file_name" then { st with companyimage_file_name := some value }
  else if key = "signature_file_name" then { st with signature_file_name := some value }
  else if key = "company_name" then { st with company_name := some value }
  else if key = "address" then { st with address := some value }
  else if key = "city_st_zip" then { st with city_st_zip := some value }
  else if key = "phone_no" then { st with phone_no := some value }
  else if key = "email" then { st with email := some value }
  else if key = "customer_name" then { st with customer_name := some value }
  else if key = "customer_email" then { st with customer_email := some value }
  else if key = "customer_address" then { st with customer_address := some value }
  else if key = "customer_city" then { st with customer_city := some value }
  else st

/-- Processing of one configuration line (the body of the `for` loop in
`load_config`): strip, split on the first `'='` (raising `ValueError` when the
line has none), strip the value, assign the matching attribute. -/
def apply_config_line (st : ConfigState) (line : String) : Except PyError ConfigState :=
  match split_first_eq (py_strip line.toList) with
  | none => Except.error PyError.valueError
  | some kv => Except.ok (set_config_key st (String.mk kv.1) (String.mk (py_strip kv.2)))

/-- Embedding of the line loop of `load_config` over the lines of an existing
configuration file. -/
def load_config (st : ConfigState) : List String → Except PyError ConfigState
  | [] => Except.ok st
  | l :: rest =>
    match apply_config_line st l with
    | Except.error e => Except.error e
    | Except.ok st' => load_config st' rest

/-! ### Document renderer (`generate_invoice`, invoicegen.py:253-389) -/

/-- reportlab's `cm` unit in points (72 / 2.54, an exact rational). -/
def cm : ℚ := 3600 / 127

/-- A4 page width (21 cm, reportlab `A4`). -/
def width : ℚ := 21 * cm

/-- A4 page height (29.7 cm, reportlab `A4`). -/
def height : ℚ := 29.7 * cm

/-- One buffered reportlab canvas operation. -/
inductive DrawOp where
  | drawImage (path : String) (x y w h : ℚ)
  | setFont (name : String) (size : Nat)
  | setFillColorRGB (r g b : ℚ)
  | setFillColor (r g b : ℚ)
  | setStrokeColorRGB (r g b : ℚ)
  | drawString (x y : ℚ) (text : String)
  | drawRightString (x y : ℚ) (text : String)
  | drawCentredString (x y : ℚ) (text : String)
  | rect (x y w h : ℚ) (fill : Bool) (stroke : Bool)
  | line (x1 y1 x2 y2 : ℚ)
  | showPage
  deriving DecidableEq

/-- One billable line item, as captured by the line-item form row. -/
structure LineItem where
  date : String
  description : String
  location : String
  rate : String
  deriving DecidableEq

/-- Application state feeding one `generate_invoice` call (the values behind
the form's bound variables) plus the counter file content. -/
structure AppState where
  companyimage_file_name : String
  signature_file_name : String
  company_name : String
  address : String
  city_st_zip : String
  phone_no : String
  email : String
  customer_name : String
  customer_email : String
  customer_address : String
  customer_city : String
  date : String
  due_date : String
  authorized_signatory : String
  line_items : List LineItem
  counter_file : String
  deriving DecidableEq

/-- Embedding of the `set_date` callback of `select_date`
(invoicegen.py:188-196): store the chosen date and recompute the due date as
the chosen date plus `timedelta(days=15)`. -/
def select_date (d : Date) (s : AppState) : AppState :=
  { s with date := py_strftime d, due_date := py_strftime (addDays d 15) }

/-- Text operations of one line-item row (invoicegen.py:333-339). -/
def row_text (y : ℚ) (it : LineItem) : List DrawOp :=
  [DrawOp.setFillColor 0 0 0,
   DrawOp.drawString (2 * cm) y it.date,
   DrawOp.drawString (5 * cm) y it.description,
   DrawOp.drawString (12 * cm) y it.location,
   DrawOp.drawString (17 * cm) y ("$" ++ it.rate)]

/-- The drawing operations of the line-item row at loop index `index`
(invoicegen.py:325-339): a light-gray background band first when the 0-based
index is odd, then the row's text. -/
def row_block (index : Nat) (y : ℚ) (it : LineItem) : List DrawOp :=
  (if index % 2 ≠ 0 then
    [DrawOp.setFillColor 0.9 0.9 0.9,
     DrawOp.rect (1.8 * cm) (y - 0.2 * cm) (17 * cm) (0.7 * cm) true false]
   else []) ++ row_text y it

/-- Errors of a `generate_invoice` attempt, named after the specification's
taxonomy: `validationError` is the required-field check failure,
`corruptCounterError` the `int()` failure on the counter file, `renderError`
the `float()` failure on a line-item rate (an uncaught `ValueError` in the
source). -/
inductive GenError where
  | validationError
  | corruptCounterError
  | renderError
  deriving DecidableEq

/-- Embedding of the line-item loop (invoicegen.py:325-345): emit each row's
operations, accumulate the subtotal with `subtotal += float(rate)` in input
order, move the cursor down 1 cm per row.  Returns (ops, subtotal, final
cursor). -/
def render_items : List LineItem → Nat → ℚ → ℚ → Except GenError (List DrawOp × ℚ × ℚ)
  | [], _, y, subtotal => Except.ok ([], subtotal, y)
  | it :: rest, index, y, subtotal =>
    match py_float it.rate with
    | none => Except.error GenError.renderError
    | some r =>
      match render_items rest (index + 1) (y - 1 * cm) (subtotal + r) with
      | Except.error e => Except.error e
      | Except.ok (ops, subtotal', y') => Except.ok (row_block index y it ++ ops, subtotal', y')

/-- Closed form of the operations emitted by a successful run of the
line-item loop: the row blocks in input order, one fixed row height apart. -/
def render_ops : List LineItem → Nat → ℚ → List DrawOp
  | [], _, _ => []
  | it :: rest, index, y => row_block index y it ++ render_ops rest (index + 1) (y - 1 * cm)

/-- Output path derived from the invoice number (invoicegen.py:270). -/
def inv_name (n : Int) : String := "invoices/Invoice_" ++ py_str_int n ++ ".pdf"

/-- Header zone operations (invoicegen.py:277-315), in source order. -/
def header_ops (s : AppState) (invoice_number : Int) : List DrawOp :=
  [DrawOp.drawImage s.companyimage_file_name (2 * cm) (height - 3.5 * cm) (4 * cm) (2 * cm),
   DrawOp.setFont "Helvetica" 10,
   DrawOp.setFillColorRGB 0.6 0.6 0.6,
   DrawOp.drawRightString (width - 2 * cm) (height - 2 * cm) s.company_name,
   DrawOp.drawRightString (width - 2 * cm) (height - 2.5 * cm) s.email,
   DrawOp.drawRightString (width - 2 * cm) (height - 3 * cm) s.phone_no,
   DrawOp.drawRightString (width - 2 * cm) (height - 3.5 * cm) s.address,
   DrawOp.drawRightString (width - 2 * cm) (height - 4 * cm) s.city_st_zip,
   DrawOp.setFillColorRGB 0 0 0,
   DrawOp.setFont "Helvetica" 20,
   DrawOp.setFillColorRGB 0 0.6 0.9,
   DrawOp.drawCentredString (width / 2) (height - 5 * cm) "INVOICE",
   DrawOp.setFillColorRGB 0 0 0,
   DrawOp.setFont "Helvetica-Bold" 10,
   DrawOp.drawRightString (width - 2 * cm) (height - 5 * cm) ("Invoice No.: " ++ py_str_int invoice_number),
   DrawOp.setFont "Helvetica" 10,
   DrawOp.drawRightString (width - 2 * cm) (height - 5.5 * cm) s.date,
   DrawOp.setFont "Helvetica-Bold" 10,
   DrawOp.drawString (2 * cm) (height - 5 * cm) "BILL TO:",
   DrawOp.setFont "Helvetica" 10,
   DrawOp.drawString (2 * cm) (height - 5.5 * cm) s.customer_name,
   DrawOp.drawString (2 * cm) (height - 6 * cm) s.customer_email,
   DrawOp.drawString (2 * cm) (height - 6.5 * cm) s.customer_address,
   DrawOp.drawString (2 * cm) (height - 7 * cm) s.customer_city,
   DrawOp.setStrokeColorRGB 0.8 0.8 0.8,
   DrawOp.line (2 * cm) (height - 8 * cm) (width - 2 * cm) (height - 8 * cm),
   DrawOp.drawString (2 * cm) (height - 8.5 * cm) "Date",
   DrawOp.drawString (5 * cm) (height - 8.5 * cm) "Description",
   DrawOp.drawString (12 * cm) (height - 8.5 * cm) "Location",
   DrawOp.drawString (17 * cm) (height - 8.5 * cm) "Rate"]

/-- Totals block, due date, signature and courtesy note (invoicegen.py:
347-381), in source order; `textwrap.wrap` of the fixed note at width 90
yields the single line embedded below. -/
def footer_ops (s : AppState) (subtotal y_position : ℚ) : List DrawOp :=
  [DrawOp.setStrokeColorRGB 0.8 0.8 0.8,
   DrawOp.line (2 * cm) y_position (width - 2 * cm) y_position,
   DrawOp.drawRightString (width - 6 * cm) (y_position - 1 * cm) "Total:",
   DrawOp.setFont "Helvetica-Bold" 12,
   DrawOp.setFillColorRGB 0 0.6 0.9,
   DrawOp.drawRightString (width - 3 * cm) (y_position - 1 * cm) ("$ " ++ py_format_2f subtotal),
   DrawOp.setFillColorRGB 0 0 0,
   DrawOp.setStrokeColorRGB 0.8 0.8 0.8,
   DrawOp.line (width - 8 * cm) (y_position - 1.5 * cm) (width - 2 * cm) (y_position - 1.5 * cm),
   DrawOp.setFont "Helvetica" 10,
   DrawOp.setFont "Helvetica-Bold" 10,
   DrawOp.drawRightString (width - 5.7 * cm) (y_position - 2 * cm) "Due Date:",
   DrawOp.setFont "Helvetica" 10,
   DrawOp.drawRightString (width - 2.5 * cm) (y_position - 2 * cm) s.due_date,
   DrawOp.drawRightString (width - 2 * cm) (2 * cm) ("Authorized Signatory: " ++ s.authorized_signatory),
   DrawOp.drawImage s.signature_file_name (width - 6 * cm) (2.5 * cm) (6 * cm) (2 * cm),
   DrawOp.setFillColorRGB 0.5 0.5 0.5,
   DrawOp.setFont "Helvetica" 10,
   DrawOp.drawString (3 * cm) (y_position - 3 * cm) "Your business is greatly appreciated.",
   DrawOp.showPage]

/-- Full canvas content of a successful generation. -/
def doc_ops (s : AppState) (n : Int) (item_ops : List DrawOp) (subtotal y_final : ℚ) : List DrawOp :=
  header_ops s n ++ item_ops ++ footer_ops s subtotal y_final

/-- Successful generation result: invoice number, output path, subtotal and
the saved document. -/
structure GenSuccess where
  invoice_number : Int
  pdf_filename : String
  subtotal : ℚ
  doc : List DrawOp
  deriving DecidableEq

instance {ε α : Type} [DecidableEq ε] [DecidableEq α] : DecidableEq (Except ε α) := fun
  | Except.error a, Except.error b =>
    if h : a = b then isTrue (by rw [h]) else isFalse (by intro hh; cases hh; exact h rfl)
  | Except.error _, Except.ok _ => isFalse (by intro hh; cases hh)
  | Except.ok _, Except.error _ => isFalse (by intro hh; cases hh)
  | Except.ok a, Except.ok b =>
    if h : a = b then isTrue (by rw [h]) else isFalse (by intro hh; cases hh; exact h rfl)

/-- Observable outcome of one `generate_invoice` call: the result, the counter
file content afterwards and the files written to disk. -/
structure GenOutcome where
  result : Except GenError GenSuccess
  counter_file : String
  files_written : List (String × List DrawOp)
  deriving DecidableEq

/-- Embedding of `generate_invoice` (invoicegen.py:253-389): required-field
gate (company name, address, city/state/zip, date, customer name, phone,
signatory), counter allocation, rendering; the canvas is only written to disk
by `save()`, which is reached exactly when nothing raised before it. -/
def generate_invoice (s : AppState) : GenOutcome :=
  if s.company_name == "" || s.address == "" || s.city_st_zip == "" || s.date == "" ||
      s.customer_name == "" || s.phone_no == "" || s.authorized_signatory == "" then
    { result := Except.error GenError.validationError,
      counter_file := s.counter_file, files_written := [] }
  else
    match get_next_invoice_number s.counter_file with
    | none =>
      { result := Except.error GenError.corruptCounterError,
        counter_file := s.counter_file, files_written := [] }
    | some (invoice_number, counter') =>
      match render_items s.line_items 0 (height - 9.5 * cm) 0 with
      | Except.error e =>
        { result := Except.error e, counter_file := counter', files_written := [] }
      | Except.ok (item_ops, subtotal, y_final) =>
        { result := Except.ok
            { invoice_number := invoice_number,
              pdf_filename := inv_name invoice_number,
              subtotal := subtotal,
              doc := doc_ops s invoice_number item_ops subtotal y_final },
          counter_file := counter',
          files_written := [(inv_name invoice_number, doc_ops s invoice_number item_ops subtotal y_final)] }

/-- Subtotal carried by a successful outcome. -/
def gen_subtotal (o : GenOutcome) : Option ℚ :=
  match o.result with
  | Except.ok g => some g.subtotal
  | Except.error _ => none

/-- The y coordinates of the rectangle operations of a canvas: in this
document the only rectangles are the alternate-row background bands. -/
def band_ys (ops : List DrawOp) : List ℚ :=
  ops.filterMap (fun op =>
    match op with
    | DrawOp.rect _ y _ _ _ _ => some y
    | _ => none)

/-- Band rectangles produced by the line-item loop on a given item list. -/
def render_band_ys (items : List LineItem) : List ℚ :=
  match render_items items 0 (height - 9.5 * cm) 0 with
  | Except.ok (ops, _, _) => band_ys ops
  | Except.error _ => []

/-- The seven fields checked by the validation gate (invoicegen.py:264). -/
def FieldsFilled (s : AppState) : Prop :=
  s.company_name ≠ "" ∧ s.address ≠ "" ∧ s.city_st_zip ≠ "" ∧ s.date ≠ "" ∧
  s.customer_name ≠ "" ∧ s.phone_no ≠ "" ∧ s.authorized_signatory ≠ ""

instance (s : AppState) : Decidable (FieldsFilled s) := by
  unfold FieldsFilled; infer_instance

/-- A concrete, fully filled application state used by the witnesses. -/
def test_state : AppState :=
  { companyimage_file_name := "logo.png"
    signature_file_name := "sig.png"
    company_name := "ACME Co"
    address := "1 Main Road"
    city_st_zip := "Springfield ST 00000"
    phone_no := "555-0100"
    email := "billing@acme.test"
    customer_name := "Jordan Doe"
    customer_email := "jordan@client.test"
    customer_address := "2 Side Road"
    customer_city := "Shelbyville"
    date := "01 August 2024"
    due_date := "16 August 2024"
    authorized_signatory := "ACME Co"
    line_items := []
    counter_file := "0" }

/-- State with empty customer name (C3 witness). -/
def c3_state : AppState := { test_state with customer_name := "" }

/-- State with the specification's example rates 10.00, 20.50, 5.25 (C6). -/
def c6_state : AppState :=
  { test_state with line_items :=
      [⟨"01 August 2024", "Consulting", "Remote", "10.00"⟩,
       ⟨"02 August 2024", "Consulting", "Remote", "20.50"⟩,
       ⟨"03 August 2024", "Consulting", "Remote", "5.25"⟩] }

/-- Five parseable line items (C7 witness). -/
def c7_items : List LineItem :=
  [⟨"d1", "work", "loc", "1"⟩, ⟨"d2", "work", "loc", "2"⟩, ⟨"d3", "work", "loc", "3"⟩,
   ⟨"d4", "work", "loc", "4"⟩, ⟨"d5", "work", "loc", "5"⟩]

/-- State with a line item whose rate is the non-numeric string "abc" (C8). -/
def c8_state : AppState :=
  { test_state with line_items := [⟨"01 August 2024", "Consulting", "Remote", "abc"⟩] }

/-- State whose unchecked fields (company email, customer email, customer
address, customer city) are all empty while the seven checked fields are
filled (C10). -/
def c10_state : AppState :=
  { test_state with
    email := ""
    customer_email := ""
    customer_address := ""
    customer_city := "" }

/-! ### Facts about the decimal printer and parser -/

lemma natDigitsBEAux_eq_of_lt :
    ∀ f1 f2 n : Nat, n < f1 → n < f2 → natDigitsBEAux f1 n = natDigitsBEAux f2 n := by
  intro f1
  induction f1 with
  | zero => intro f2 n h1 _; omega
  | succ f ih =>
    intro f2 n h1 h2
    cases f2 with
    | zero => omega
    | succ g =>
      simp only [natDigitsBEAux]
      by_cases h10 : n < 10
      · simp [h10]
      · simp only [if_neg h10]
        rw [ih g (n / 10) (by omega) (by omega)]

lemma natDigitsBE_unfold (n : Nat) :
    natDigitsBE n =
      if n < 10 then [Nat.digitChar n]
      else natDigitsBE (n / 10) ++ [Nat.digitChar (n % 10)] := by
  by_cases h10 : n < 10
  · rw [if_pos h10]
    conv_lhs => rw [show natDigitsBE n = natDigitsBEAux (n + 1) n from rfl, natDigitsBEAux]
    rw [if_pos h10]
  · rw [if_neg h10]
    conv_lhs => rw [show natDigitsBE n = natDigitsBEAux (n + 1) n from rfl, natDigitsBEAux]
    rw [if_neg h10]
    exact congrArg (· ++ [Nat.digitChar (n % 10)])
      (natDigitsBEAux_eq_of_lt n (n / 10 + 1) (n / 10) (by omega) (by omega))

lemma digitChar_isDigit : ∀ d : Nat, d < 10 → (Nat.digitChar d).isDigit = true := by decide

lemma digitVal_digitChar : ∀ d : Nat, d < 10 → digitVal (Nat.digitChar d) = d := by decide

lemma natDigitsBE_ne_nil (n : Nat) : natDigitsBE n ≠ [] := by
  rw [natDigitsBE_unfold]
  by_cases h10 : n < 10 <;> simp [h10]

lemma natDigitsBE_isDigit (n : Nat) : ∀ c ∈ natDigitsBE n, c.isDigit = true := by
  induction n using Nat.strong_induction_on with
  | _ n ih =>
    rw [natDigitsBE_unfold]
    by_cases h10 : n < 10
    · simp only [if_pos h10, List.mem_singleton]
      intro c hc; subst hc
      exact digitChar_isDigit n h10
    · simp only [if_neg h10, List.mem_append, List.mem_singleton]
      intro c hc
      rcases hc with hc | hc
      · exact ih (n / 10) (by omega) c hc
      · subst hc; exact digitChar_isDigit (n % 10) (by omega)

lemma natDigitsBE_fold (n : Nat) :
    ∀ acc : Nat, (natDigitsBE n).foldl (fun a c => 10 * a + digitVal c) acc =
      acc * 10 ^ (natDigitsBE n).length + n := by
  induction n using Nat.strong_induction_on with
  | _ n ih =>
    intro acc
    rw [natDigitsBE_unfold]
    by_cases h10 : n < 10
    · simp only [if_pos h10, List.foldl_cons, List.foldl_nil, List.length_singleton, pow_one,
        digitVal_digitChar n h10]
      omega
    · simp only [if_neg h10, List.foldl_append, List.foldl_cons, List.foldl_nil,
        List.length_append, List.length_singleton, digitVal_digitChar (n % 10) (by omega : n % 10 < 10)]
      rw [ih (n / 10) (by omega) acc, pow_succ, ← mul_assoc]
      have hmod := Nat.div_add_mod n 10
      set A := acc * 10 ^ (natDigitsBE (n / 10)).length with hA
      omega

lemma natDigitsBE_length_mono : ∀ n m : Nat, m ≤ n →
    (natDigitsBE m).length ≤ (natDigitsBE n).length := by
  intro n
  induction n using Nat.strong_induction_on with
  | _ n ih =>
    intro m hmn
    rw [natDigitsBE_unfold n, natDigitsBE_unfold m]
    by_cases hn : n < 10
    · have hm : m < 10 := by omega
      simp [hn, hm]
    · by_cases hm : m < 10
      · simp [hn, hm]
      · simp only [if_neg hn, if_neg hm, List.length_append, List.length_singleton]
        have := ih (n / 10) (by omega) (m / 10) (Nat.div_le_div_right hmn)
        omega

lemma isDigit_not_whitespace (c : Char) (h : c.isDigit = true) : c.isWhitespace = false := by
  cases hw : c.isWhitespace
  · rfl
  · exfalso
    simp only [Char.isWhitespace, Bool.or_eq_true, decide_eq_true_eq] at hw
    rcases hw with ((hc | hc) | hc) | hc <;> subst hc <;> exact absurd h (by decide)

lemma isDigit_ne_minus (c : Char) (h : c.isDigit = true) : c ≠ '-' := by
  intro hc; subst hc; exact absurd h (by decide)

lemma isDigit_ne_plus (c : Char) (h : c.isDigit = true) : c ≠ '+' := by
  intro hc; subst hc; exact absurd h (by decide)

lemma dropWhile_eq_self_of_neg (p : Char → Bool) (l : List Char)
    (h : ∀ c ∈ l, p c = false) : l.dropWhile p = l := by
  cases l with
  | nil => rfl
  | cons a l =>
    rw [List.dropWhile_cons, h a (List.mem_cons_self a l)]
    simp

lemma py_strip_eq_self (l : List Char) (h : ∀ c ∈ l, c.isWhitespace = false) :
    py_strip l = l := by
  unfold py_strip
  rw [dropWhile_eq_self_of_neg _ _ h,
    dropWhile_eq_self_of_neg _ _ (fun c hc => h c (List.mem_reverse.mp hc)),
    List.reverse_reverse]

lemma digits_value_natDigitsBE (n : Nat) : digits_value (natDigitsBE n) = some n := by
  have h1 : (natDigitsBE n).isEmpty = false := by
    cases h : natDigitsBE n with
    | nil => exact absurd h (natDigitsBE_ne_nil n)
    | cons c rest => rfl
  have h2 : (natDigitsBE n).all Char.isDigit = true := by
    rw [List.all_eq_true]
    exact fun c hc => natDigitsBE_isDigit n c hc
  simp only [digits_value, int_fold, h1, h2, Bool.false_eq_true, if_false, if_true]
  rw [natDigitsBE_fold n 0]
  norm_num

lemma py_str_nat_toList (n : Nat) : (py_str_nat n).toList = natDigitsBE n := rfl

lemma py_int_py_str_nat (n : Nat) : py_int (py_str_nat n) = some (n : Int) := by
  have hmem := natDigitsBE_isDigit n
  have hstrip : py_strip (py_str_nat n).toList = natDigitsBE n := by
    rw [py_str_nat_toList]
    exact py_strip_eq_self _ (fun c hc => isDigit_not_whitespace c (hmem c hc))
  have h1 : (natDigitsBE n).head? ≠ some '-' := by
    cases h : natDigitsBE n with
    | nil => simp
    | cons c rest =>
      simp only [List.head?_cons, ne_eq, Option.some.injEq]
      intro hc; subst hc
      exact absurd (hmem '-' (by rw [h]; exact List.mem_cons_self _ _)) (by decide)
  have h2 : (natDigitsBE n).head? ≠ some '+' := by
    cases h : natDigitsBE n with
    | nil => simp
    | cons c rest =>
      simp only [List.head?_cons, ne_eq, Option.some.injEq]
      intro hc; subst hc
      exact absurd (hmem '+' (by rw [h]; exact List.mem_cons_self _ _)) (by decide)
  simp only [py_int, hstrip, if_neg h1, if_neg h2, digits_value_natDigitsBE]
  rfl

lemma py_str_int_ofNat (n : Nat) : py_str_int (n : Int) = py_str_nat n := by
  unfold py_str_int
  rw [if_neg (by omega : ¬((n : Int) < 0))]
  norm_num

lemma get_next_canonical (C : Nat) :
    get_next_invoice_number (py_str_nat C) = some ((C : Int) + 1, py_str_nat (C + 1)) := by
  unfold get_next_invoice_number
  rw [py_int_py_str_nat C]
  simp only [Option.map_some']
  have hcast : (C : Int) + 1 = ((C + 1 : Nat) : Int) := by push_cast; ring
  rw [hcast, py_str_int_ofNat (C + 1)]
  unfold file_write_at_start
  have hlen : (py_str_nat C).toList.length ≤ (py_str_nat (C + 1)).toList.length :=
    natDigitsBE_length_mono (C + 1) C (by omega)
  rw [List.drop_eq_nil_of_le hlen, List.append_nil]
  rfl

/-! ### Counter-file claims -/

/-- C1: for every non-negative counter value C stored (canonically) in the
counter file, N sequential calls to `get_next_invoice_number` return exactly
C+1, C+2, ..., C+N in that order — no repeats, no gaps — each call writing the
returned value back, leaving the file at C+N. -/
theorem c1_monotonic_numbering (C N : Nat) :
    allocate_n (py_str_nat C) N =
      some ((List.range' (C + 1) N).map (fun k => (k : Int)), py_str_nat (C + N)) := by
  induction N generalizing C with
  | zero => simp [allocate_n, List.range']
  | succ N ih =>
    have hstep : allocate_n (py_str_nat C) (N + 1) =
        (get_next_invoice_number (py_str_nat C)).bind (fun p =>
          (allocate_n p.2 N).map (fun q => (p.1 :: q.1, q.2))) := rfl
    rw [hstep, get_next_canonical C]
    simp only [Option.bind, ih (C + 1), Option.map_some', List.range'_succ, List.map_cons]
    have e2 : C + (N + 1) = C + 1 + N := by omega
    rw [e2]
    norm_cast

/-- C2: after one allocation starting from a counter file whose entire content
is the base-10 representation of C, the file's entire content is exactly the
base-10 representation of the returned number C+1 (full rewrite, no stale
trailing characters), and reparsing the file yields that same number. -/
theorem c2_counter_durability (C : Nat) :
    get_next_invoice_number (py_str_nat C) = some ((C : Int) + 1, py_str_nat (C + 1)) ∧
    py_int (py_str_nat (C + 1)) = some ((C : Int) + 1) := by
  refine ⟨get_next_canonical C, ?_⟩
  rw [py_int_py_str_nat (C + 1)]
  norm_cast

lemma verify_iterate (n : Nat) (v : String) :
    verify_invoice_number_file^[n] (some v) = some v := by
  induction n with
  | zero => rfl
  | succ n ih =>
    rw [Function.iterate_succ_apply]
    exact ih

/-- C9: the initialize-if-absent operation creates the counter file containing
0 when it is absent and, for an existing file with any content v, any number
of further calls leave the content equal to v — it never resets an existing
counter. -/
theorem c9_init_idempotent (v : String) (n : Nat) :
    verify_invoice_number_file^[n + 1] none = some "0" ∧
    verify_invoice_number_file^[n] (some v) = some v := by
  refine ⟨?_, verify_iterate n v⟩
  rw [Function.iterate_succ_apply]
  exact verify_iterate n "0"

/-! ### Validation-gate claim -/

/-- C3: an invoice record with an empty customer name makes `generate_invoice`
fail with the validation error, leaving the counter file untouched and writing
no output file. -/
theorem c3_validation_gate (s : AppState) (h : s.customer_name = "") :
    generate_invoice s =
      { result := Except.error GenError.validationError,
        counter_file := s.counter_file, files_written := [] } := by
  simp [generate_invoice, h]

theorem c3_validation_gate_witness :
    c3_state.customer_name = "" ∧
    generate_invoice c3_state =
      { result := Except.error GenError.validationError,
        counter_file := c3_state.counter_file, files_written := [] } :=
  ⟨by decide, c3_validation_gate c3_state (by decide)⟩

/-! ### Configuration-loader claim -/

lemma apply_config_line_error (st : ConfigState) (l : String) (e : PyError)
    (h : apply_config_line st l = Except.error e) : e = PyError.valueError := by
  unfold apply_config_line at h
  rcases hsp : split_first_eq (py_strip l.toList) with _ | kv
  · rw [hsp] at h
    simp only [Except.error.injEq] at h
    exact h.symm
  · rw [hsp] at h
    simp at h

/-- C5 (counterexample): on the configuration input consisting of the single
line "noequals" (no `=` separator), the loader terminates with the uncaught
`ValueError` of tuple unpacking — an unclassified exception — and not with the
classified `ConfigurationError` the claim asserts. -/
theorem c5_counterexample :
    load_config {} ["noequals"] = Except.error PyError.valueError ∧
    load_config {} ["noequals"] ≠ Except.error PyError.configurationError := by
  decide

/-- C5 (amended): for every configuration input containing a line with no `=`
separator, the loader does not silently ignore the line: it terminates with
the unclassified `ValueError` raised by the unpacking of `split('=', 1)` (not
with a classified `ConfigurationError`). -/
theorem c5_malformed_line (st : ConfigState) (lines : List String)
    (h : ∃ l ∈ lines, split_first_eq (py_strip l.toList) = none) :
    load_config st lines = Except.error PyError.valueError := by
  induction lines generalizing st with
  | nil => simp at h
  | cons l rest ih =>
    obtain ⟨l', hl', hnone⟩ := h
    rcases List.mem_cons.mp hl' with rfl | hmem
    · simp only [load_config, apply_config_line, hnone]
    · simp only [load_config]
      cases hap : apply_config_line st l with
      | error e => rw [apply_config_line_error st l e hap]
      | ok st' => exact ih st' ⟨l', hmem, hnone⟩

theorem c5_malformed_line_witness :
    (∃ l ∈ ["noequals"], split_first_eq (py_strip l.toList) = none) ∧
    load_config {} ["noequals"] = Except.error PyError.valueError :=
  ⟨by decide, c5_malformed_line {} ["noequals"] (by decide)⟩

/-! ### Renderer lemmas -/

lemma render_items_ok (items : List LineItem) : ∀ (index : Nat) (y sub : ℚ),
    (∀ it ∈ items, (py_float it.rate).isSome = true) →
    render_items items index y sub =
      Except.ok (render_ops items index y,
        items.foldl (fun a it => a + (py_float it.rate).getD 0) sub,
        y - items.length * cm) := by
  induction items with
  | nil =>
    intro index y sub _
    simp [render_items, render_ops]
  | cons it rest ih =>
    intro index y sub h
    obtain ⟨r, hr⟩ := Option.isSome_iff_exists.mp (h it (List.mem_cons_self it rest))
    simp only [render_items, render_ops, hr]
    rw [ih (index + 1) (y - 1 * cm) (sub + r) (fun x hx => h x (List.mem_cons_of_mem it hx))]
    simp only [List.foldl_cons, List.length_cons, hr, Option.getD_some]
    push_cast
    have hy : y - 1 * cm - (rest.length : ℚ) * cm = y - ((rest.length : ℚ) + 1) * cm := by ring
    rw [hy]

lemma render_items_err (items : List LineItem) : ∀ (index : Nat) (y sub : ℚ),
    (∃ it ∈ items, py_float it.rate = none) →
    render_items items index y sub = Except.error GenError.renderError := by
  induction items with
  | nil =>
    intro _ _ _ h
    simp at h
  | cons it rest ih =>
    intro index y sub h
    cases hfl : py_float it.rate with
    | none => simp [render_items, hfl]
    | some r =>
      obtain ⟨it', hit', hnone⟩ := h
      rcases List.mem_cons.mp hit' with rfl | hmem
      · rw [hfl] at hnone
        cases hnone
      · simp only [render_items, hfl]
        rw [ih (index + 1) (y - 1 * cm) (sub + r) ⟨it', hmem, hnone⟩]

lemma band_ys_row_block_even (index : Nat) (y : ℚ) (it : LineItem) (hp : index % 2 = 0) :
    band_ys (row_block index y it) = [] := by
  simp [row_block, row_text, band_ys, hp]

lemma band_ys_row_block_odd (index : Nat) (y : ℚ) (it : LineItem) (hp : index % 2 ≠ 0) :
    band_ys (row_block index y it) = [y - 0.2 * cm] := by
  simp [row_block, row_text, band_ys, hp]

set_option maxRecDepth 4000 in
lemma band_ys_render_ops (items : List LineItem) : ∀ (index : Nat) (y : ℚ),
    band_ys (render_ops items index y) =
      ((List.range items.length).filter (fun i => (index + i) % 2 == 1)).map
        (fun i : Nat => y - (i : ℚ) * cm - 0.2 * cm) := by
  induction items with
  | nil =>
    intro index y
    simp [render_ops, band_ys]
  | cons it rest ih =>
    intro index y
    have hsplit : band_ys (render_ops (it :: rest) index y) =
        band_ys (row_block index y it) ++ band_ys (render_ops rest (index + 1) (y - 1 * cm)) := by
      simp [render_ops, band_ys, List.filterMap_append]
    rw [hsplit, ih (index + 1) (y - 1 * cm), List.length_cons, List.range_succ_eq_map,
      List.filter_cons]
    have hfeq : ((fun i => (index + i) % 2 == 1) ∘ Nat.succ) =
        (fun i => (index + 1 + i) % 2 == 1) := by
      funext i
      have h : index + (i + 1) = index + 1 + i := by omega
      simp [Function.comp_apply, Nat.succ_eq_add_one, h]
    have hmeq : ((fun i : Nat => y - (i : ℚ) * cm - 0.2 * cm) ∘ Nat.succ) =
        (fun i : Nat => y - 1 * cm - (i : ℚ) * cm - 0.2 * cm) := by
      funext i
      simp only [Function.comp_apply, Nat.succ_eq_add_one, Nat.cast_add, Nat.cast_one]
      ring
    by_cases hp : index % 2 = 0
    · have hp0 : ((index + 0) % 2 == 1) = false := by
        simp only [Nat.add_zero, beq_eq_false_iff_ne, ne_eq]
        omega
      rw [band_ys_row_block_even index y it hp, hp0]
      simp only [Bool.false_eq_true, if_false, List.nil_append]
      rw [List.filter_map, List.map_map, hfeq, hmeq]
    · have hp0 : ((index + 0) % 2 == 1) = true := by
        simp only [Nat.add_zero, beq_iff_eq]
        omega
      rw [band_ys_row_block_odd index y it hp, hp0]
      simp only [eq_self_iff_true, if_true, List.map_cons, Nat.cast_zero, zero_mul, sub_zero,
        List.singleton_append]
      rw [List.filter_map, List.map_map, hfeq, hmeq]

lemma generate_invoice_unfold (s : AppState) (C : Int)
    (hf : FieldsFilled s) (hC : py_int s.counter_file = some C) :
    generate_invoice s =
      match render_items s.line_items 0 (height - 9.5 * cm) 0 with
      | Except.error e =>
        { result := Except.error e,
          counter_file := file_write_at_start s.counter_file (py_str_int (C + 1)),
          files_written := [] }
      | Except.ok (item_ops, subtotal, y_final) =>
        { result := Except.ok
            { invoice_number := C + 1, pdf_filename := inv_name (C + 1), subtotal := subtotal,
              doc := doc_ops s (C + 1) item_ops subtotal y_final },
          counter_file := file_write_at_start s.counter_file (py_str_int (C + 1)),
          files_written := [(inv_name (C + 1), doc_ops s (C + 1) item_ops subtotal y_final)] } := by
  obtain ⟨h1, h2, h3, h4, h5, h6, h7⟩ := hf
  have hcond : (s.company_name == "" || s.address == "" || s.city_st_zip == "" || s.date == "" ||
      s.customer_name == "" || s.phone_no == "" || s.authorized_signatory == "") = false := by
    simp [h1, h2, h3, h4, h5, h6, h7]
  have hget : get_next_invoice_number s.counter_file =
      some (C + 1, file_write_at_start s.counter_file (py_str_int (C + 1))) := by
    unfold get_next_invoice_number
    rw [hC, Option.map_some']
  unfold generate_invoice
  rw [hcond, hget]
  rfl

lemma generate_invoice_ok (s : AppState) (C : Int)
    (hf : FieldsFilled s) (hC : py_int s.counter_file = some C)
    (hr : ∀ it ∈ s.line_items, (py_float it.rate).isSome = true) :
    generate_invoice s =
      { result := Except.ok
          { invoice_number := C + 1,
            pdf_filename := inv_name (C + 1),
            subtotal := s.line_items.foldl (fun a it => a + (py_float it.rate).getD 0) 0,
            doc := doc_ops s (C + 1) (render_ops s.line_items 0 (height - 9.5 * cm))
              (s.line_items.foldl (fun a it => a + (py_float it.rate).getD 0) 0)
              (height - 9.5 * cm - s.line_items.length * cm) },
        counter_file := file_write_at_start s.counter_file (py_str_int (C + 1)),
        files_written := [(inv_name (C + 1),
          doc_ops s (C + 1) (render_ops s.line_items 0 (height - 9.5 * cm))
            (s.line_items.foldl (fun a it => a + (py_float it.rate).getD 0) 0)
            (height - 9.5 * cm - s.line_items.length * cm))] } := by
  rw [generate_invoice_unfold s C hf hC,
    render_items_ok s.line_items 0 (height - 9.5 * cm) 0 hr]

/-! ### Renderer claims -/

/-- C6: when every rate parses, the rendered subtotal is the sum of the
per-line rates accumulated by `+` in input order, and the document displays it
right-aligned formatted to two decimal places after a dollar sign. -/
theorem c6_subtotal_correctness (s : AppState) (C : Int)
    (hf : FieldsFilled s) (hC : py_int s.counter_file = some C)
    (hr : ∀ it ∈ s.line_items, (py_float it.rate).isSome = true) :
    ∃ g, (generate_invoice s).result = Except.ok g ∧
      g.subtotal = (s.line_items.map (fun it => (py_float it.rate).getD 0)).foldl
        (fun a r => a + r) 0 ∧
      DrawOp.drawRightString (width - 3 * cm)
        (height - 9.5 * cm - s.line_items.length * cm - 1 * cm)
        ("$ " ++ py_format_2f g.subtotal) ∈ g.doc := by
  rw [generate_invoice_ok s C hf hC hr]
  refine ⟨_, rfl, ?_, ?_⟩
  · rw [List.foldl_map]
  · simp [doc_ops, footer_ops]

lemma py_float_rate_1 : py_float "10.00" = some 10 := by
  rw [show py_float "10.00" =
    some (1 * (((10 : ℕ) : ℚ) + ((0 : ℕ) : ℚ) / (10 : ℚ) ^ (2 : ℕ))) from rfl]
  norm_num

lemma py_float_rate_2 : py_float "20.50" = some (41 / 2) := by
  rw [show py_float "20.50" =
    some (1 * (((20 : ℕ) : ℚ) + ((50 : ℕ) : ℚ) / (10 : ℚ) ^ (2 : ℕ))) from rfl]
  norm_num

lemma py_float_rate_3 : py_float "5.25" = some (21 / 4) := by
  rw [show py_float "5.25" =
    some (1 * (((5 : ℕ) : ℚ) + ((25 : ℕ) : ℚ) / (10 : ℚ) ^ (2 : ℕ))) from rfl]
  norm_num

lemma py_format_2f_3575 : py_format_2f ((143 : ℚ) / 4) = "35.75" := by
  simp only [py_format_2f]
  rw [show round ((143 : ℚ) / 4 * 100) = (3575 : ℤ) from by norm_num [round_eq]]
  decide

theorem c6_subtotal_correctness_witness :
    (FieldsFilled c6_state ∧ py_int c6_state.counter_file = some 0 ∧
      ∀ it ∈ c6_state.line_items, (py_float it.rate).isSome = true) ∧
    (∃ g, (generate_invoice c6_state).result = Except.ok g ∧
      g.subtotal = (c6_state.line_items.map (fun it => (py_float it.rate).getD 0)).foldl
        (fun a r => a + r) 0 ∧
      DrawOp.drawRightString (width - 3 * cm)
        (height - 9.5 * cm - c6_state.line_items.length * cm - 1 * cm)
        ("$ " ++ py_format_2f g.subtotal) ∈ g.doc) ∧
    gen_subtotal (generate_invoice c6_state) = some ((143 : ℚ) / 4) ∧
    py_format_2f ((143 : ℚ) / 4) = "35.75" := by
  have h1 : FieldsFilled c6_state := by decide
  have h2 : py_int c6_state.counter_file = some 0 := by decide
  have h3 : ∀ it ∈ c6_state.line_items, (py_float it.rate).isSome = true := by decide
  refine ⟨⟨h1, h2, h3⟩, c6_subtotal_correctness c6_state 0 h1 h2 h3, ?_, py_format_2f_3575⟩
  rw [generate_invoice_ok c6_state 0 h1 h2 h3]
  show some (c6_state.line_items.foldl (fun a it => a + (py_float it.rate).getD 0) 0) =
    some ((143 : ℚ) / 4)
  show some ((0 : ℚ) + (py_float "10.00").getD 0 + (py_float "20.50").getD 0 +
    (py_float "5.25").getD 0) = some ((143 : ℚ) / 4)
  rw [py_float_rate_1, py_float_rate_2, py_float_rate_3]
  norm_num

/-- C7: the line-item loop paints a light-gray background band exactly on the
rows of odd 0-based index, and within a banded row the band rectangle is drawn
before the row's text; even rows carry no rectangle. -/
theorem c7_row_banding (items : List LineItem) (y sub : ℚ)
    (h : ∀ it ∈ items, (py_float it.rate).isSome = true) :
    ∃ subtotal, render_items items 0 y sub =
        Except.ok (render_ops items 0 y, subtotal, y - items.length * cm) ∧
      band_ys (render_ops items 0 y) =
        ((List.range items.length).filter (fun i => i % 2 == 1)).map
          (fun i : Nat => y - (i : ℚ) * cm - 0.2 * cm) ∧
      (∀ j yr it, j % 2 = 1 →
        row_block j yr it =
          DrawOp.setFillColor 0.9 0.9 0.9 ::
          DrawOp.rect (1.8 * cm) (yr - 0.2 * cm) (17 * cm) (0.7 * cm) true false ::
          row_text yr it) ∧
      (∀ j yr it, j % 2 = 0 → row_block j yr it = row_text yr it) ∧
      (∀ yr it, band_ys (row_text yr it) = []) := by
  refine ⟨_, render_items_ok items 0 y sub h, ?_, ?_, ?_, ?_⟩
  · rw [band_ys_render_ops items 0 y]
    simp only [Nat.zero_add]
  · intro j yr it hj
    have hne : j % 2 ≠ 0 := by omega
    simp [row_block, hne]
  · intro j yr it hj
    simp [row_block, hj]
  · intro yr it
    simp [band_ys, row_text]

theorem c7_row_banding_witness :
    (∀ it ∈ c7_items, (py_float it.rate).isSome = true) ∧
    render_band_ys c7_items =
      [height - 9.5 * cm - (1 : ℚ) * cm - 0.2 * cm,
       height - 9.5 * cm - (3 : ℚ) * cm - 0.2 * cm] := by
  refine ⟨by decide, ?_⟩
  obtain ⟨S, hok, hband, _⟩ := c7_row_banding c7_items (height - 9.5 * cm) 0 (by decide)
  have hrw : render_band_ys c7_items = band_ys (render_ops c7_items 0 (height - 9.5 * cm)) := by
    unfold render_band_ys
    rw [hok]
  rw [hrw, hband,
    show (List.range c7_items.length).filter (fun i => i % 2 == 1) = [1, 3] from by decide]
  norm_num

/-- C8: a line item whose rate does not parse as a number makes the generation
fail with the render error, and no output document file is produced (the
canvas is never saved). -/
theorem c8_rate_parse_failure (s : AppState) (C : Int)
    (hf : FieldsFilled s) (hC : py_int s.counter_file = some C)
    (hbad : ∃ it ∈ s.line_items, py_float it.rate = none) :
    (generate_invoice s).result = Except.error GenError.renderError ∧
    (generate_invoice s).files_written = [] := by
  rw [generate_invoice_unfold s C hf hC,
    render_items_err s.line_items 0 (height - 9.5 * cm) 0 hbad]
  exact ⟨rfl, rfl⟩

theorem c8_rate_parse_failure_witness :
    (FieldsFilled c8_state ∧ py_int c8_state.counter_file = some 0 ∧
      ∃ it ∈ c8_state.line_items, py_float it.rate = none) ∧
    (generate_invoice c8_state).result = Except.error GenError.renderError ∧
    (generate_invoice c8_state).files_written = [] := by
  have h1 : FieldsFilled c8_state := by decide
  have h2 : py_int c8_state.counter_file = some 0 := by decide
  have h3 : ∃ it ∈ c8_state.line_items, py_float it.rate = none := by decide
  exact ⟨⟨h1, h2, h3⟩, c8_rate_parse_failure c8_state 0 h1 h2 h3⟩

/-- C10: the validation gate checks only the seven fields of
invoicegen.py:264; with those filled, records whose company email, customer
email, customer address and customer city are empty still generate: a counter
value is consumed and the empty strings are rendered into the document. -/
theorem c10_unchecked_fields (s : AppState) (C : Int)
    (hf : FieldsFilled s) (hC : py_int s.counter_file = some C)
    (hr : ∀ it ∈ s.line_items, (py_float it.rate).isSome = true)
    (he1 : s.email = "") (he2 : s.customer_email = "")
    (he3 : s.customer_address = "") (he4 : s.customer_city = "") :
    ∃ g, (generate_invoice s).result = Except.ok g ∧
      (generate_invoice s).counter_file =
        file_write_at_start s.counter_file (py_str_int (C + 1)) ∧
      DrawOp.drawRightString (width - 2 * cm) (height - 2.5 * cm) "" ∈ g.doc ∧
      DrawOp.drawString (2 * cm) (height - 6 * cm) "" ∈ g.doc ∧
      DrawOp.drawString (2 * cm) (height - 6.5 * cm) "" ∈ g.doc ∧
      DrawOp.drawString (2 * cm) (height - 7 * cm) "" ∈ g.doc := by
  rw [generate_invoice_ok s C hf hC hr]
  refine ⟨_, rfl, rfl, ?_, ?_, ?_, ?_⟩ <;>
    simp [doc_ops, header_ops, he1, he2, he3, he4]

/-! ### Calendar claims -/

lemma leapsBefore_succ (y : Nat) (hy : 1 ≤ y) :
    leapsBefore (y + 1) = leapsBefore y + (if isLeapYear y then 1 else 0) := by
  have hiff : (isLeapYear y = true) ↔ (y % 4 = 0 ∧ (y % 100 ≠ 0 ∨ y % 400 = 0)) := by
    simp [isLeapYear]
  unfold leapsBefore
  simp only [Nat.add_sub_cancel]
  by_cases h : isLeapYear y = true
  · rw [if_pos h]
    rw [hiff] at h
    omega
  · rw [if_neg h]
    rw [hiff] at h
    push_neg at h
    omega

lemma one_le_daysInMonth (y m : Nat) (h1 : 1 ≤ m) (h2 : m ≤ 12) : 1 ≤ daysInMonth y m := by
  interval_cases m <;> simp only [daysInMonth] <;>
    first
    | (split_ifs <;> omega)
    | omega

lemma daysBeforeMonth_succ (y m : Nat) (h1 : 1 ≤ m) (h2 : m ≤ 11) :
    daysBeforeMonth y (m + 1) = daysBeforeMonth y m + daysInMonth y m := by
  interval_cases m <;> norm_num [daysBeforeMonth, daysInMonth] <;>
    first
    | (split_ifs <;> omega)
    | omega

lemma nextDay_step (d : Date) (h : ValidDate d) :
    ValidDate (nextDay d) ∧ dateOrdinal (nextDay d) = dateOrdinal d + 1 := by
  obtain ⟨hy, hm1, hm2, hd1, hd2⟩ := h
  unfold nextDay
  by_cases h1 : d.day < daysInMonth d.year d.month
  · rw [if_pos h1]
    refine ⟨⟨hy, hm1, hm2, ?_, ?_⟩, ?_⟩
    · show 1 ≤ d.day + 1
      omega
    · show d.day + 1 ≤ daysInMonth d.year d.month
      omega
    · show 365 * (d.year - 1) + leapsBefore d.year + daysBeforeMonth d.year d.month +
        (d.day + 1) = 365 * (d.year - 1) + leapsBefore d.year +
        daysBeforeMonth d.year d.month + d.day + 1
      omega
  · rw [if_neg h1]
    have hde : d.day = daysInMonth d.year d.month := by omega
    by_cases h2 : d.month < 12
    · rw [if_pos h2]
      refine ⟨⟨hy, ?_, ?_, ?_,
        one_le_daysInMonth d.year (d.month + 1) (by omega) (by omega)⟩, ?_⟩
      · show 1 ≤ d.month + 1
        omega
      · show d.month + 1 ≤ 12
        omega
      · show (1 : Nat) ≤ 1
        omega
      · show 365 * (d.year - 1) + leapsBefore d.year + daysBeforeMonth d.year (d.month + 1) +
          1 = 365 * (d.year - 1) + leapsBefore d.year + daysBeforeMonth d.year d.month +
          d.day + 1
        have hs := daysBeforeMonth_succ d.year d.month hm1 (by omega)
        omega
    · rw [if_neg h2]
      have hm12 : d.month = 12 := by omega
      have hd31 : d.day = 31 := by
        rw [hde, hm12]
        rfl
      refine ⟨⟨?_, ?_, ?_, ?_, ?_⟩, ?_⟩
      · show 1 ≤ d.year + 1
        omega
      · show (1 : Nat) ≤ 1
        omega
      · show (1 : Nat) ≤ 12
        omega
      · show (1 : Nat) ≤ 1
        omega
      · show (1 : Nat) ≤ 31
        omega
      · show 365 * (d.year + 1 - 1) + leapsBefore (d.year + 1) +
          daysBeforeMonth (d.year + 1) 1 + 1 = 365 * (d.year - 1) + leapsBefore d.year +
          daysBeforeMonth d.year d.month + d.day + 1
        have hls := leapsBefore_succ d.year hy
        have hdb1 : daysBeforeMonth (d.year + 1) 1 = 0 := rfl
        have hdb12 : daysBeforeMonth d.year 12 =
            334 + (if isLeapYear d.year then 1 else 0) := rfl
        rw [hm12, hd31, hdb1, hdb12]
        by_cases hL : isLeapYear d.year = true
        · simp only [if_pos hL] at hls ⊢
          omega
        · simp only [if_neg hL] at hls ⊢
          omega

lemma addDays_spec (n : Nat) : ∀ d : Date, ValidDate d →
    ValidDate (addDays d n) ∧ dateOrdinal (addDays d n) = dateOrdinal d + n := by
  induction n with
  | zero =>
    intro d h
    exact ⟨h, rfl⟩
  | succ n ih =>
    intro d h
    have hstep : addDays d (n + 1) = addDays (nextDay d) n := by
      unfold addDays
      exact Function.iterate_succ_apply nextDay n d
    rw [hstep]
    obtain ⟨hv, ho⟩ := nextDay_step d h
    obtain ⟨hv', ho'⟩ := ih (nextDay d) hv
    exact ⟨hv', by omega⟩

/-- C4: after the date-picker callback stores an issue date (any valid
calendar date within Python's `datetime` range), the state carries a due date
that is exactly the issue date plus 15 calendar days: the stored strings are
the `strftime` renderings, the offset date is again a valid calendar date, and
its day-count ordinal exceeds the issue date's by exactly 15 — i.e. month and
year rollover are performed correctly. -/
theorem c4_due_date_offset (d : Date) (s : AppState)
    (h : ValidDate d) (hy : d.year ≤ 9998) :
    (select_date d s).date = py_strftime d ∧
    (select_date d s).due_date = py_strftime (addDays d 15) ∧
    ValidDate (addDays d 15) ∧
    dateOrdinal (addDays d 15) = dateOrdinal d + 15 := by
  obtain ⟨hv, ho⟩ := addDays_spec 15 d h
  exact ⟨rfl, rfl, hv, ho⟩

theorem c4_due_date_offset_witness :
    (ValidDate ⟨2024, 12, 20⟩ ∧ (2024 : Nat) ≤ 9998 ∧
      (select_date ⟨2024, 12, 20⟩ test_state).due_date =
        py_strftime (addDays ⟨2024, 12, 20⟩ 15) ∧
      dateOrdinal (addDays ⟨2024, 12, 20⟩ 15) = dateOrdinal ⟨2024, 12, 20⟩ + 15) ∧
    addDays ⟨2024, 12, 20⟩ 15 = ⟨2025, 1, 4⟩ ∧
    addDays ⟨2024, 1, 1⟩ 15 = ⟨2024, 1, 16⟩ ∧
    py_strftime (addDays ⟨2024, 12, 20⟩ 15) = "04 January 2025" := by
  have h := c4_due_date_offset ⟨2024, 12, 20⟩ test_state (by decide) (by norm_num)
  exact ⟨⟨by decide, by norm_num, h.2.1, h.2.2.2⟩, by decide, by decide, by decide⟩

theorem c10_unchecked_fields_witness :
    (FieldsFilled c10_state ∧ py_int c10_state.counter_file = some 0 ∧
      (∀ it ∈ c10_state.line_items, (py_float it.rate).isSome = true) ∧
      c10_state.email = "" ∧ c10_state.customer_email = "" ∧
      c10_state.customer_address = "" ∧ c10_state.customer_city = "") ∧
    (∃ g, (generate_invoice c10_state).result = Except.ok g ∧
      (generate_invoice c10_state).counter_file =
        file_write_at_start c10_state.counter_file (py_str_int (0 + 1)) ∧
      DrawOp.drawRightString (width - 2 * cm) (height - 2.5 * cm) "" ∈ g.doc ∧
      DrawOp.drawString (2 * cm) (height - 6 * cm) "" ∈ g.doc ∧
      DrawOp.drawString (2 * cm) (height - 6.5 * cm) "" ∈ g.doc ∧
      DrawOp.drawString (2 * cm) (height - 7 * cm) "" ∈ g.doc) := by
  have h1 : FieldsFilled c10_state := by decide
  have h2 : py_int c10_state.counter_file = some 0 := by decide
  have h3 : ∀ it ∈ c10_state.line_items, (py_float it.rate).isSome = true := by decide
  exact ⟨⟨h1, h2, h3, rfl, rfl, rfl, rfl⟩,
    c10_unchecked_fields c10_state 0 h1 h2 h3 rfl rfl rfl rfl⟩

end InvoiceGen
